import Mathlib

/-
Verification of the k-fix incident lifecycle engine.

The definitions below are a shallow embedding of the Python sources:
  src/database.py                    (alert store)
  src/main.py                        (webhook, hashing, worker, per-alert pipeline)
  src/external_resource_service/k8s.py (workload discovery)
  src/decision/solution_generator.py (safety classifier)

Machine-facing conventions of the embedding:
  - Python strings are Lean String; character-level scanning (substring test,
    lower-casing, trimming) is done on List Char so that every operation is
    structurally recursive and evaluates by rfl or decide.
  - Python dict/JSON values are the Json inductive below; Python truthiness
    is Json.truthy.
  - A Python function that can raise is embedded as an Except value; an
    except-clause in the source appears as a match on that Except.
  - Database rows are AlertRow, the table is a List AlertRow; SQL statements
    are embedded as list operations; a query that names a column is checked
    against the column list of the CREATE TABLE statement in the source, and
    an unknown column is a query error (as in PostgreSQL).
  - Wall-clock time (NOW(), time.time()) is an explicit Nat argument.
  - A possible backend fault (timeout or connection error) of one database
    call is an explicit `Option DbError` argument: `none` means the backend
    answered, `some e` means the call raised `e`.
-/

namespace KFix

/-! ## Character-level string utilities (Python semantics) -/

/-- Python substring test `pat in s`, on characters: true when `pat` occurs
as a contiguous sublist of `s`.  The empty pattern is contained in every
string, as in Python. -/
def pyInChars (pat : List Char) : List Char → Bool
  | [] => pat.isEmpty
  | c :: t => pat.isPrefixOf (c :: t) || pyInChars pat t

/-- Python `pat in s` on strings. -/
def pyIn (pat s : String) : Bool := pyInChars pat.toList s.toList

/-- Python `s.startswith(pat)`. -/
def pyStartsWith (s pat : String) : Bool := pat.toList.isPrefixOf s.toList

/-- Python `s.lower()` (ASCII case folding suffices for the sources). -/
def pyLower (s : String) : String := String.mk (s.toList.map Char.toLower)

/-- Python `s.strip()`: drop whitespace at both ends. -/
def pyStrip (s : String) : String :=
  String.mk (((s.toList.dropWhile Char.isWhitespace).reverse.dropWhile
    Char.isWhitespace).reverse)

/-- Helper for Python `s.split(":", 1)[1]`: everything after the first
colon.  The sources only evaluate this under a startswith guard that
guarantees a colon is present. -/
def afterFirstColonChars : List Char → List Char
  | [] => []
  | c :: t => if c = ':' then t else afterFirstColonChars t

/-- Python `tag.split(":", 1)[1]` as used in _extract_k8s_info_from_tags. -/
def afterFirstColon (s : String) : String := String.mk (afterFirstColonChars s.toList)

/-! ## JSON / Python-value model -/

/-- Model of the JSON-like Python values flowing through the system
(webhook payloads, JSONB columns, enrichment data). -/
inductive Json where
  | null : Json
  | bool (b : Bool) : Json
  | num (n : Int) : Json
  | str (s : String) : Json
  | arr (xs : List Json) : Json
  | obj (kvs : List (String × Json)) : Json

/-- Dict lookup: Python `d.get(k)` (None when the key is absent). -/
def Json.get? : Json → String → Option Json
  | .obj kvs, k => (kvs.find? (fun kv => kv.1 == k)).map (·.2)
  | _, _ => none

/-- Dict lookup with a default: Python `d.get(k, dflt)`. -/
def Json.getD (j : Json) (k : String) (dflt : Json) : Json :=
  (j.get? k).getD dflt

/-- Python truthiness of a value. -/
def Json.truthy : Json → Bool
  | .null => false
  | .bool b => b
  | .num n => n != 0
  | .str s => !s.toList.isEmpty
  | .arr xs => !xs.isEmpty
  | .obj kvs => !kvs.isEmpty

/-- Python truthiness of `d.get(k)` (None is falsy). -/
def truthyOpt : Option Json → Bool
  | none => false
  | some v => v.truthy

/-! ## Alert store: src/database.py -/

/-- AlertStatus enumeration (database.py lines 12-23). -/
inductive AlertStatus where
  | RECEIVED | PROCESSING | ENRICHED | SOLUTION_PROPOSED | RESOLVED | FAILED
deriving DecidableEq, Repr

/-- The string value persisted for a status; `str(status)` returns
`self.value` (database.py lines 14-23). -/
def AlertStatus.value : AlertStatus → String
  | .RECEIVED => "received"
  | .PROCESSING => "processing"
  | .ENRICHED => "enriched"
  | .SOLUTION_PROPOSED => "solution_proposed"
  | .RESOLVED => "resolved"
  | .FAILED => "failed"

/-- One row of the `alerts` table (columns of the CREATE TABLE statement,
database.py lines 92-102). -/
structure AlertRow where
  alert_hash : String
  payload : Json
  enriched_data : Option Json
  status : String
  created_at : Nat
  updated_at : Nat
  processed_at : Option Nat
  retry_count : Nat
  error_message : Option String

/-- The columns the CREATE TABLE statement declares (database.py lines
92-102).  A query naming any other column is an undefined-column error. -/
def alertsTableColumns : List String :=
  ["alert_hash", "payload", "enriched_data", "status", "created_at",
   "updated_at", "processed_at", "retry_count", "error_message"]

/-- The store: contents of the `alerts` table. -/
abbrev Store := List AlertRow

/-- Errors a database call can surface (timeouts, connection faults,
undefined-column query errors, or any other backend exception). -/
inductive DbError where
  | timeout
  | undefinedColumn (col : String)
  | other (msg : String)
deriving DecidableEq, Repr

/-- Row for a fresh INSERT of save_alert: column defaults from the
CREATE TABLE statement (status `received`, retry_count 0, NOW()
timestamps, NULL enrichment and error columns). -/
def AlertRow.fresh (h : String) (p : Json) (now : Nat) : AlertRow :=
  { alert_hash := h, payload := p, enriched_data := none,
    status := AlertStatus.RECEIVED.value, created_at := now,
    updated_at := now, processed_at := none, retry_count := 0,
    error_message := none }

/-- Whether a row with the given hash exists. -/
def Store.hasHash (st : Store) (h : String) : Bool :=
  st.any (fun r => r.alert_hash == h)

/-- First row with the given hash. -/
def Store.findRow (st : Store) (h : String) : Option AlertRow :=
  st.find? (fun r => r.alert_hash == h)

/-- Embedding of the query body of is_alert_received (database.py line
150): `SELECT id FROM alerts WHERE alert_hash = $1` via fetchval.  The
query names the column `id`; executing it first resolves that name
against the table schema, and the `alerts` table of _create_tables has
no such column, so the backend answers with an undefined-column error.
For a well-formed column the fetchval result would be non-None exactly
when a matching row exists. -/
def fetchvalSelectIdQuery (st : Store) (h : String) : Except DbError (Option Unit) :=
  if alertsTableColumns.contains "id" then
    .ok (if st.hasHash h then some () else none)
  else
    .error (.undefinedColumn "id")

/-- is_alert_received (database.py lines 144-161).  The try-body runs the
SELECT (or raises the backend fault); `return result is not None`; every
exception is caught and turned into `false`. -/
def is_alert_received (fault : Option DbError) (st : Store) (h : String) : Bool :=
  let body : Except DbError (Option Unit) :=
    match fault with
    | some e => .error e
    | none => fetchvalSelectIdQuery st h
  match body with
  | .ok result => result.isSome
  | .error _ => false

/-- Effect of the INSERT of save_alert (database.py lines 168-172):
`INSERT INTO alerts (alert_hash, payload) VALUES ($1, $2) ON CONFLICT
(alert_hash) DO NOTHING`. -/
def insertOnConflictDoNothing (st : Store) (p : Json) (h : String) (now : Nat) : Store :=
  if st.hasHash h then st else st ++ [AlertRow.fresh h p now]

/-- save_alert (database.py lines 163-179): runs the INSERT and returns
the hash; the except-clause logs and RE-RAISES, so a backend fault
propagates to the caller. -/
def save_alert (fault : Option DbError) (st : Store) (p : Json) (h : String)
    (now : Nat) : Except DbError (Store × String) :=
  match fault with
  | some e => .error e
  | none => .ok (insertOnConflictDoNothing st p h now, h)

/-- Effect of one UPDATE of update_alert_status on one matching row
(database.py lines 185-226).  RESOLVED stamps processed_at and leaves
retry_count; every other status increments retry_count and writes
error_message; enriched_data is written only when the argument is truthy
(`if enriched_data:`). -/
def updateRow (status : AlertStatus) (error_message : Option String)
    (enriched_data : Option Json) (now : Nat) (r : AlertRow) : AlertRow :=
  if status = AlertStatus.RESOLVED then
    if truthyOpt enriched_data then
      { r with status := status.value, updated_at := now,
               processed_at := some now, enriched_data := enriched_data }
    else
      { r with status := status.value, updated_at := now,
               processed_at := some now }
  else
    if truthyOpt enriched_data then
      { r with status := status.value, updated_at := now,
               enriched_data := enriched_data, error_message := error_message,
               retry_count := r.retry_count + 1 }
    else
      { r with status := status.value, updated_at := now,
               error_message := error_message, retry_count := r.retry_count + 1 }

/-- update_alert_status (database.py lines 181-234): the UPDATE touches
every row whose alert_hash matches; the except-clause logs and does NOT
re-raise, so a backend fault leaves the store unchanged and surfaces
nothing. -/
def update_alert_status (fault : Option DbError) (st : Store) (h : String)
    (status : AlertStatus) (error_message : Option String)
    (enriched_data : Option Json) (now : Nat) : Store :=
  match fault with
  | some _ => st
  | none =>
      st.map (fun r =>
        if r.alert_hash == h then updateRow status error_message enriched_data now r
        else r)

/-- Stable insertion sort by created_at ascending, modelling
`ORDER BY created_at ASC`. -/
def insertByCreated (r : AlertRow) : List AlertRow → List AlertRow
  | [] => [r]
  | x :: xs => if r.created_at < x.created_at then r :: x :: xs
               else x :: insertByCreated r xs

/-- Sort of the pending-alert query result. -/
def sortByCreated : List AlertRow → List AlertRow
  | [] => []
  | x :: xs => insertByCreated x (sortByCreated xs)

/-- get_pending_alerts (database.py lines 236-261): rows in `received`
state older than one minute, oldest first, limited; a backend fault or
any other exception yields the empty list. -/
def get_pending_alerts (fault : Option DbError) (st : Store) (limit : Nat)
    (now : Nat) : List (String × Json) :=
  match fault with
  | some _ => []
  | none =>
      let eligible := st.filter (fun r =>
        r.status == AlertStatus.RECEIVED.value && r.created_at + 60 < now)
      ((sortByCreated eligible).take limit).map (fun r => (r.alert_hash, r.payload))

/-! ## C1: the duplicate check -/

/-- C1.  The spec says is_received(hash) returns true exactly when a row
with that hash exists, so that a second submission of the same hash gets
a duplicate indication.  The code is wrong: the query of
is_alert_received selects column `id`, which the tables created by
_create_tables do not have, so every call errors and the except-clause
converts the error to `false` - even on a healthy backend with the row
present.  This theorem evaluates the embedding at the failing input: a
one-row store that does contain hash "h". -/
theorem c1_is_received_misses_existing_row :
    Store.hasHash [AlertRow.fresh "h" (Json.obj []) 0] "h" = true ∧
    is_alert_received none [AlertRow.fresh "h" (Json.obj []) 0] "h" = false ∧
    (∀ fault st h, is_alert_received fault st h = false) := by
  refine ⟨rfl, rfl, fun fault st h => ?_⟩
  cases fault <;> rfl

/-- Number of rows carrying a given hash. -/
def Store.countHash (st : Store) (h : String) : Nat :=
  (st.filter (fun r => r.alert_hash == h)).length

theorem updateRow_alert_hash (status : AlertStatus) (em : Option String)
    (enr : Option Json) (now : Nat) (r : AlertRow) :
    (updateRow status em enr now r).alert_hash = r.alert_hash := by
  unfold updateRow
  split <;> split <;> rfl

theorem updateRow_retry_of_ne_resolved (status : AlertStatus) (em : Option String)
    (enr : Option Json) (now : Nat) (r : AlertRow)
    (hs : status ≠ AlertStatus.RESOLVED) :
    (updateRow status em enr now r).retry_count = r.retry_count + 1 := by
  unfold updateRow
  rw [if_neg hs]
  split <;> rfl

theorem updateRow_resolved (em : Option String) (enr : Option Json) (now : Nat)
    (r : AlertRow) :
    (updateRow AlertStatus.RESOLVED em enr now r).retry_count = r.retry_count ∧
    (updateRow AlertStatus.RESOLVED em enr now r).processed_at = some now := by
  unfold updateRow
  rw [if_pos rfl]
  split <;> exact ⟨rfl, rfl⟩

/-- Mapping an update that only rewrites matching rows, and preserves the
hash, commutes with looking the hash up. -/
theorem findRow_map_update (st : Store) (h : String) (f : AlertRow → AlertRow)
    (hf : ∀ r, (f r).alert_hash = r.alert_hash) :
    Store.findRow (st.map (fun r => if r.alert_hash == h then f r else r)) h
      = (Store.findRow st h).map f := by
  induction st with
  | nil => rfl
  | cons r t ih =>
      by_cases hr : r.alert_hash == h
      · simp only [Store.findRow, List.map_cons, List.find?_cons, if_pos hr] at *
        rw [hf r, hr]
        rfl
      · simp only [Store.findRow, List.map_cons, List.find?_cons, if_neg hr] at *
        rw [Bool.of_not_eq_true hr]
        exact ih

theorem findRow_update_alert_status (st : Store) (h : String)
    (status : AlertStatus) (em : Option String) (enr : Option Json) (now : Nat) :
    Store.findRow (update_alert_status none st h status em enr now) h
      = (Store.findRow st h).map (updateRow status em enr now) := by
  exact findRow_map_update st h _ (fun r => updateRow_alert_hash status em enr now r)

/-- One status write as issued by the worker pipeline: arguments of a
single update_alert_status call. -/
structure StatusWrite where
  status : AlertStatus
  error_message : Option String
  enriched_data : Option Json
  now : Nat

/-- A sequence of update_alert_status calls against the same hash on a
healthy backend. -/
def applyWrites (st : Store) (h : String) (ws : List StatusWrite) : Store :=
  ws.foldl
    (fun s w => update_alert_status none s h w.status w.error_message w.enriched_data w.now)
    st

theorem retry_count_after_writes (ws : List StatusWrite) (st : Store)
    (h : String) (r : AlertRow)
    (hfind : Store.findRow st h = some r)
    (hnr : ∀ w ∈ ws, w.status ≠ AlertStatus.RESOLVED) :
    ∃ r', Store.findRow (applyWrites st h ws) h = some r' ∧
      r'.retry_count = r.retry_count + ws.length := by
  induction ws generalizing st r with
  | nil => exact ⟨r, hfind, rfl⟩
  | cons w t ih =>
      have hstep : Store.findRow
          (update_alert_status none st h w.status w.error_message w.enriched_data w.now) h
          = some (updateRow w.status w.error_message w.enriched_data w.now r) := by
        rw [findRow_update_alert_status, hfind]
        rfl
      obtain ⟨r', hr', hc⟩ := ih _ _ hstep (fun x hx => hnr x (List.mem_cons_of_mem w hx))
      refine ⟨r', hr', ?_⟩
      rw [hc, updateRow_retry_of_ne_resolved _ _ _ _ _ (hnr w (List.mem_cons_self w t))]
      simp only [List.length_cons]
      omega

/-! ## C4: failure semantics of the store operations -/

/-- C4 counterexample.  The claim says every store operation, save
included, converts a backend error into a safe default and lets no
exception escape.  save_alert does not: its except-clause logs and then
re-raises (database.py line 179), so a timeout propagates to the caller
instead of being absorbed as a no-op. -/
theorem c4_save_alert_propagates_error :
    save_alert (some DbError.timeout) [] (Json.obj []) "h" 0
      = Except.error DbError.timeout := rfl

/-- C4 as amended: on a backend fault, is_alert_received returns false,
update_alert_status leaves the store unchanged, and get_pending_alerts
returns the empty list, none of them surfacing the exception - but
save_alert re-raises the fault to its caller. -/
theorem c4_safe_defaults_except_save (e : DbError) (st : Store) (h : String)
    (status : AlertStatus) (em : Option String) (enr : Option Json)
    (now limit : Nat) (p : Json) :
    is_alert_received (some e) st h = false ∧
    update_alert_status (some e) st h status em enr now = st ∧
    get_pending_alerts (some e) st limit now = [] ∧
    save_alert (some e) st p h now = Except.error e :=
  ⟨rfl, rfl, rfl, rfl⟩

/-! ## C5: retry_count bookkeeping -/

/-- C5.  Starting from a row whose retry_count is 0 (as save_alert
creates it), N update_alert_status writes with non-RESOLVED statuses
leave the row with retry_count = N; and a RESOLVED write never touches
retry_count while stamping processed_at with the write time. -/
theorem c5_retry_count_semantics (st : Store) (h : String) (r : AlertRow)
    (ws : List StatusWrite) (em : Option String) (enr : Option Json) (now : Nat)
    (hfind : Store.findRow st h = some r)
    (hzero : r.retry_count = 0)
    (hnr : ∀ w ∈ ws, w.status ≠ AlertStatus.RESOLVED) :
    (Store.findRow (applyWrites st h ws) h).map (fun x => x.retry_count)
        = some ws.length ∧
    (Store.findRow (update_alert_status none st h AlertStatus.RESOLVED em enr now) h).map
        (fun x => (x.retry_count, x.processed_at))
      = some (r.retry_count, some now) := by
  constructor
  · obtain ⟨r', hr', hc⟩ := retry_count_after_writes ws st h r hfind hnr
    rw [hr']
    simp only [Option.map_some']
    rw [hc, hzero, Nat.zero_add]
  · rw [findRow_update_alert_status, hfind]
    simp only [Option.map_some']
    rw [(updateRow_resolved em enr now r).1, (updateRow_resolved em enr now r).2]

/-- C5 witness: a concrete store with one fresh row, two non-RESOLVED
writes (processing, then failed), then the RESOLVED write. -/
theorem c5_retry_count_semantics_witness :
    (Store.findRow
        (applyWrites [AlertRow.fresh "h" (Json.obj []) 0] "h"
          [⟨AlertStatus.PROCESSING, none, none, 61⟩,
           ⟨AlertStatus.FAILED, some "boom", none, 62⟩]) "h").map
        (fun x => x.retry_count) = some 2 ∧
    (Store.findRow (update_alert_status none [AlertRow.fresh "h" (Json.obj []) 0]
        "h" AlertStatus.RESOLVED none none 63) "h").map
        (fun x => (x.retry_count, x.processed_at))
      = some ((AlertRow.fresh "h" (Json.obj []) 0).retry_count, some 63) :=
  c5_retry_count_semantics [AlertRow.fresh "h" (Json.obj []) 0] "h"
    (AlertRow.fresh "h" (Json.obj []) 0)
    [⟨AlertStatus.PROCESSING, none, none, 61⟩,
     ⟨AlertStatus.FAILED, some "boom", none, 62⟩]
    none none 63
    rfl rfl (by decide)

/-! ## C6: idempotent ingestion -/

theorem hasHash_false_filter (st : Store) (h : String)
    (hh : Store.hasHash st h = false) :
    st.filter (fun r => r.alert_hash == h) = [] := by
  rw [List.filter_eq_nil_iff]
  intro a ha hc
  rw [Store.hasHash] at hh
  have : st.any (fun r => r.alert_hash == h) = true := List.any_eq_true.mpr ⟨a, ha, hc⟩
  rw [hh] at this
  exact Bool.false_ne_true this

theorem hasHash_append_fresh (st : Store) (h : String) (p : Json) (now : Nat) :
    Store.hasHash (st ++ [AlertRow.fresh h p now]) h = true := by
  rw [Store.hasHash, List.any_append]
  simp [AlertRow.fresh]

theorem findRow_append_fresh (st : Store) (h : String) (p : Json) (now : Nat)
    (hh : Store.hasHash st h = false) :
    Store.findRow (st ++ [AlertRow.fresh h p now]) h = some (AlertRow.fresh h p now) := by
  have hnone : Store.findRow st h = none := by
    rw [Store.findRow, List.find?_eq_none]
    intro x hx hc
    have : st.any (fun r => r.alert_hash == h) = true := List.any_eq_true.mpr ⟨x, hx, hc⟩
    rw [Store.hasHash] at hh
    rw [hh] at this
    exact Bool.false_ne_true this
  rw [Store.findRow, List.find?_append]
  rw [Store.findRow] at hnone
  rw [hnone]
  simp [AlertRow.fresh]

/-- C6.  save is idempotent in the hash: starting from a store without
hash h, saving payload p1 then payload p2 under the same hash results in
exactly one row with that hash, the second call is a no-op that still
reports success (no conflict error), and the surviving row keeps the
first payload. -/
theorem c6_save_idempotent (st : Store) (p1 p2 : Json) (h : String) (n1 n2 : Nat)
    (hnew : Store.hasHash st h = false) :
    save_alert none st p1 h n1
        = Except.ok (st ++ [AlertRow.fresh h p1 n1], h) ∧
    save_alert none (st ++ [AlertRow.fresh h p1 n1]) p2 h n2
        = Except.ok (st ++ [AlertRow.fresh h p1 n1], h) ∧
    Store.countHash (st ++ [AlertRow.fresh h p1 n1]) h = 1 ∧
    Store.findRow (st ++ [AlertRow.fresh h p1 n1]) h
        = some (AlertRow.fresh h p1 n1) := by
  refine ⟨?_, ?_, ?_, findRow_append_fresh st h p1 n1 hnew⟩
  · simp only [save_alert, insertOnConflictDoNothing, hnew]
    rfl
  · simp only [save_alert, insertOnConflictDoNothing, hasHash_append_fresh]
    rfl
  · rw [Store.countHash, List.filter_append, hasHash_false_filter st h hnew]
    simp [AlertRow.fresh]

/-- C6 witness: empty store, two distinct payloads, same hash. -/
theorem c6_save_idempotent_witness :
    save_alert none [] (Json.str "p1") "h" 1
        = Except.ok ([] ++ [AlertRow.fresh "h" (Json.str "p1") 1], "h") ∧
    save_alert none ([] ++ [AlertRow.fresh "h" (Json.str "p1") 1]) (Json.str "p2") "h" 2
        = Except.ok ([] ++ [AlertRow.fresh "h" (Json.str "p1") 1], "h") ∧
    Store.countHash ([] ++ [AlertRow.fresh "h" (Json.str "p1") 1]) "h" = 1 ∧
    Store.findRow ([] ++ [AlertRow.fresh "h" (Json.str "p1") 1]) "h"
        = some (AlertRow.fresh "h" (Json.str "p1") 1) :=
  c6_save_idempotent [] (Json.str "p1") (Json.str "p2") "h" 1 2 rfl

/-! ## Webhook hashing and validation: src/main.py -/

/-- Rendering of a Python value inside an f-string, as used by
_generate_alert_hash.  Scalar cases follow Python str(); the container
cases are collapsed to markers, which is sound for every claim here
because the claims only use that equal values render equally (the
payload fields fed to the hash are scalars in practice). -/
def pyStr : Json → String
  | .null => "None"
  | .bool true => "True"
  | .bool false => "False"
  | .num n => toString n
  | .str s => s
  | .arr _ => "[list]"
  | .obj _ => "[dict]"

/-- The string hashed by _generate_alert_hash (main.py line 90): the
f-string joining payload.get of the keys id, eventType and date (each
defaulting to the empty string) with dashes. -/
def alertData (p : Json) : String :=
  pyStr (p.getD "id" (Json.str "")) ++ "-" ++
  pyStr (p.getD "eventType" (Json.str "")) ++ "-" ++
  pyStr (p.getD "date" (Json.str ""))

/-- _generate_alert_hash (main.py lines 88-91): the MD5 hex digest of
alertData.  MD5 itself is an uninterpreted digest function taken as a
parameter; the claims about the hash only use it congruently. -/
def _generate_alert_hash (md5 : String → String) (p : Json) : String :=
  md5 (alertData p)

/-- _validate_payload (main.py lines 81-86): requires truthy `event_id`
and `alert_id` fields (note these are different keys from the ones the
hash reads; the error texts are the ones in the source). -/
def _validate_payload (p : Json) : Except String Unit :=
  if !truthyOpt (p.get? "event_id") then .error "Missing eventType in payload"
  else if !truthyOpt (p.get? "alert_id") then .error "Missing id in payload"
  else .ok ()

/-! ## C10: what the dedup hash depends on -/

/-- C10.  The dedup hash reads only the `id`, `eventType` and `date`
payload fields (empty-string default): any two payloads agreeing on
those three fields hash identically - whatever their `event_id` and
`alert_id` (the fields validation requires) - and therefore collapse
into a single stored row when saved. -/
theorem c10_hash_depends_on_three_fields (md5 : String → String) (p q : Json)
    (hid : p.getD "id" (Json.str "") = q.getD "id" (Json.str ""))
    (het : p.getD "eventType" (Json.str "") = q.getD "eventType" (Json.str ""))
    (hdt : p.getD "date" (Json.str "") = q.getD "date" (Json.str "")) :
    _generate_alert_hash md5 p = _generate_alert_hash md5 q ∧
    (∀ st n1 n2, Store.hasHash st (_generate_alert_hash md5 p) = false →
      Store.countHash
        (insertOnConflictDoNothing
          (insertOnConflictDoNothing st p (_generate_alert_hash md5 p) n1)
          q (_generate_alert_hash md5 q) n2)
        (_generate_alert_hash md5 p) = 1) := by
  have heq : _generate_alert_hash md5 p = _generate_alert_hash md5 q := by
    unfold _generate_alert_hash alertData
    rw [hid, het, hdt]
  refine ⟨heq, fun st n1 n2 hnew => ?_⟩
  rw [← heq]
  have h1 : insertOnConflictDoNothing st p (_generate_alert_hash md5 p) n1
      = st ++ [AlertRow.fresh (_generate_alert_hash md5 p) p n1] := by
    simp only [insertOnConflictDoNothing, hnew]
    rfl
  have h2 : insertOnConflictDoNothing
      (st ++ [AlertRow.fresh (_generate_alert_hash md5 p) p n1]) q
      (_generate_alert_hash md5 p) n2
      = st ++ [AlertRow.fresh (_generate_alert_hash md5 p) p n1] := by
    simp [insertOnConflictDoNothing, hasHash_append_fresh]
  rw [h1, h2, Store.countHash, List.filter_append, hasHash_false_filter st _ hnew]
  simp [AlertRow.fresh]

/-- C10 witness: payloads agreeing on id/eventType/date, both passing
validation, with different event_id and alert_id values; md5 is
instantiated with a concrete digest stand-in. -/
theorem c10_hash_depends_on_three_fields_witness :
    (_generate_alert_hash (fun s => s)
        (Json.obj [("id", Json.str "1"), ("eventType", Json.str "alert"),
                   ("date", Json.str "d"), ("event_id", Json.str "7"),
                   ("alert_id", Json.str "A")])
      = _generate_alert_hash (fun s => s)
        (Json.obj [("id", Json.str "1"), ("eventType", Json.str "alert"),
                   ("date", Json.str "d"), ("event_id", Json.str "8"),
                   ("alert_id", Json.str "B")])) ∧
    Store.countHash
      (insertOnConflictDoNothing
        (insertOnConflictDoNothing []
          (Json.obj [("id", Json.str "1"), ("eventType", Json.str "alert"),
                     ("date", Json.str "d"), ("event_id", Json.str "7"),
                     ("alert_id", Json.str "A")])
          (_generate_alert_hash (fun s => s)
            (Json.obj [("id", Json.str "1"), ("eventType", Json.str "alert"),
                       ("date", Json.str "d"), ("event_id", Json.str "7"),
                       ("alert_id", Json.str "A")])) 1)
        (Json.obj [("id", Json.str "1"), ("eventType", Json.str "alert"),
                   ("date", Json.str "d"), ("event_id", Json.str "8"),
                   ("alert_id", Json.str "B")])
        (_generate_alert_hash (fun s => s)
          (Json.obj [("id", Json.str "1"), ("eventType", Json.str "alert"),
                     ("date", Json.str "d"), ("event_id", Json.str "8"),
                     ("alert_id", Json.str "B")])) 2)
      (_generate_alert_hash (fun s => s)
        (Json.obj [("id", Json.str "1"), ("eventType", Json.str "alert"),
                   ("date", Json.str "d"), ("event_id", Json.str "7"),
                   ("alert_id", Json.str "A")])) = 1 ∧
    _validate_payload
      (Json.obj [("id", Json.str "1"), ("eventType", Json.str "alert"),
                 ("date", Json.str "d"), ("event_id", Json.str "7"),
                 ("alert_id", Json.str "A")]) = Except.ok () ∧
    _validate_payload
      (Json.obj [("id", Json.str "1"), ("eventType", Json.str "alert"),
                 ("date", Json.str "d"), ("event_id", Json.str "8"),
                 ("alert_id", Json.str "B")]) = Except.ok () :=
  ⟨(c10_hash_depends_on_three_fields (fun s => s) _ _ rfl rfl rfl).1,
   (c10_hash_depends_on_three_fields (fun s => s) _ _ rfl rfl rfl).2 [] 1 2 rfl,
   rfl, rfl⟩

/-! ## Per-alert pipeline: _process_alert_async (main.py lines 93-143) -/

/-- _extract_k8s_info_from_tags (main.py lines 65-79): scan the tag list,
the last matching tag of each kind wins, values are everything after the
first colon. -/
def _extract_k8s_info_from_tags (tags : List String) :
    Option String × Option String × Option String :=
  tags.foldl
    (fun acc tag =>
      if pyStartsWith tag "pod_name:" then
        (some (afterFirstColon tag), acc.2.1, acc.2.2)
      else if pyStartsWith tag "kube_namespace:" then
        (acc.1, some (afterFirstColon tag), acc.2.2)
      else if pyStartsWith tag "kube_deployment:" then
        (acc.1, acc.2.1, some (afterFirstColon tag))
      else acc)
    (none, none, none)

/-- The tag list of `event_details.get("tags", [])`: a JSON array of
strings (non-string entries do not occur in Datadog tag lists and are
mapped to the empty string). -/
def jsonTags : Json → List String
  | .arr xs => xs.map (fun j => match j with | .str s => s | _ => "")
  | _ => []

/-- Python truthiness of an optional string (None and the empty string
are falsy). -/
def truthyStrOpt : Option String → Bool
  | none => false
  | some s => !s.toList.isEmpty

/-- Outcomes of the two external calls one _process_alert_async run can
make: datadog_manager.get_runtime_event (an error also covers a
non-integer event_id, which raises inside the same try-block) and
get_k8s_context (whose exception is caught by the same except-clause). -/
structure ProcessEnv where
  runtime_event : Except String Json
  k8s_context : Except String Json

/-- _process_alert_async (main.py lines 93-143) as a store transformer:
set PROCESSING; without a truthy event_id, or when event retrieval or
context assembly fails, set FAILED; otherwise attach the enrichment
object and set ENRICHED.  The run ends there: the function performs no
further step after the ENRICHED write. -/
def _process_alert_async (env : ProcessEnv) (st : Store) (payload : Json)
    (h : String) (now : Nat) : Store :=
  let st1 := update_alert_status none st h AlertStatus.PROCESSING none none now
  if truthyOpt (payload.get? "event_id") then
    match env.runtime_event with
    | .error _ => update_alert_status none st1 h AlertStatus.FAILED none none now
    | .ok event_details =>
        let tags := jsonTags (event_details.getD "tags" (Json.arr []))
        let info := _extract_k8s_info_from_tags tags
        if truthyStrOpt info.1 then
          match env.k8s_context with
          | .error _ => update_alert_status none st1 h AlertStatus.FAILED none none now
          | .ok ctx =>
              let enriched := Json.obj
                [("event_details", event_details), ("k8s_context", ctx),
                 ("processing_time", Json.num now),
                 ("enrichment_status", Json.str "success")]
              update_alert_status none st1 h AlertStatus.ENRICHED none (some enriched) now
        else update_alert_status none st1 h AlertStatus.FAILED none none now
  else update_alert_status none st1 h AlertStatus.FAILED none none now

/-- A concrete successful run for the C2 counterexample: the runtime
event carries a pod_name tag and context assembly succeeds. -/
def demoEvent : Json :=
  Json.obj [("tags", Json.arr [Json.str "pod_name:web-1",
                               Json.str "kube_namespace:ops"])]

def demoEnv : ProcessEnv :=
  { runtime_event := Except.ok demoEvent,
    k8s_context := Except.ok (Json.obj [("pod", Json.str "web-1")]) }

def demoPayload : Json :=
  Json.obj [("event_id", Json.str "7"), ("alert_id", Json.str "A")]

/-- C2 counterexample.  The claim says a fully successful worker pass
continues past ENRICHED to parsing/classification and a terminal write,
leaving a terminal status (RESOLVED or FAILED).  On a concrete fully
successful run the code stops at the ENRICHED write: the final status is
`enriched`, which is neither `resolved` nor `failed`. -/
theorem c2_success_pass_not_terminal :
    (Store.findRow
        (_process_alert_async demoEnv [AlertRow.fresh "h" demoPayload 0]
          demoPayload "h" 100) "h").map (fun x => x.status)
      = some AlertStatus.ENRICHED.value ∧
    AlertStatus.ENRICHED.value ≠ AlertStatus.RESOLVED.value ∧
    AlertStatus.ENRICHED.value ≠ AlertStatus.FAILED.value := by
  refine ⟨rfl, by decide, by decide⟩

/-- C2 as amended: when the event id is present, event retrieval
succeeds, a pod name is found in the tags, and context assembly
succeeds, the pass moves the alert to ENRICHED with the enrichment
object attached - and that non-terminal status is where the pass ends;
there is no parsing/classification step or terminal write afterwards. -/
theorem c2_success_yields_enriched (env : ProcessEnv) (st : Store)
    (payload : Json) (h : String) (now : Nat) (ev ctx : Json) (r : AlertRow)
    (hev : truthyOpt (payload.get? "event_id") = true)
    (hok : env.runtime_event = Except.ok ev)
    (hpod : truthyStrOpt
        (_extract_k8s_info_from_tags (jsonTags (ev.getD "tags" (Json.arr [])))).1 = true)
    (hctx : env.k8s_context = Except.ok ctx)
    (hfind : Store.findRow st h = some r) :
    (Store.findRow (_process_alert_async env st payload h now) h).map
        (fun x => (x.status, x.enriched_data))
      = some (AlertStatus.ENRICHED.value,
          some (Json.obj
            [("event_details", ev), ("k8s_context", ctx),
             ("processing_time", Json.num now),
             ("enrichment_status", Json.str "success")])) ∧
    AlertStatus.ENRICHED.value ≠ AlertStatus.RESOLVED.value ∧
    AlertStatus.ENRICHED.value ≠ AlertStatus.FAILED.value := by
  refine ⟨?_, by decide, by decide⟩
  unfold _process_alert_async
  simp only [hev, hok, hctx, hpod, if_true]
  rw [findRow_update_alert_status, findRow_update_alert_status, hfind]
  rfl

/-- C2 witness: the amended theorem applied to the concrete successful
run. -/
theorem c2_success_yields_enriched_witness :
    (Store.findRow
        (_process_alert_async demoEnv [AlertRow.fresh "h" demoPayload 0]
          demoPayload "h" 100) "h").map (fun x => (x.status, x.enriched_data))
      = some (AlertStatus.ENRICHED.value,
          some (Json.obj
            [("event_details", demoEvent),
             ("k8s_context", Json.obj [("pod", Json.str "web-1")]),
             ("processing_time", Json.num 100),
             ("enrichment_status", Json.str "success")])) ∧
    AlertStatus.ENRICHED.value ≠ AlertStatus.RESOLVED.value ∧
    AlertStatus.ENRICHED.value ≠ AlertStatus.FAILED.value :=
  c2_success_yields_enriched demoEnv [AlertRow.fresh "h" demoPayload 0]
    demoPayload "h" 100 demoEvent (Json.obj [("pod", Json.str "web-1")])
    (AlertRow.fresh "h" demoPayload 0) rfl rfl rfl rfl rfl

/-! ## Worker batch scheduling: _alert_worker (main.py lines 145-179)

The loop body is `for alert in pending_alerts: await
_process_alert_async(...)`: each alert is awaited to completion before
the next iteration starts, and `asyncio.sleep` runs only after the for
loop ends.  With `ds` the processing durations of the alerts of one
batch, in batch order, the start and finish instants of each alert
(relative to the moment the batch was pulled) are therefore the running
sums below. -/

/-- Start instants of the alerts of one batch under the sequential for
loop of _alert_worker, first alert starting at `t`. -/
def workerStartTimesFrom (t : Nat) : List Nat → List Nat
  | [] => []
  | d :: ds => t :: workerStartTimesFrom (t + d) ds

/-- Start instants relative to the batch pull. -/
def workerStartTimes (ds : List Nat) : List Nat := workerStartTimesFrom 0 ds

/-- Finish instants of the alerts of one batch, first alert starting at
`t`. -/
def workerFinishTimesFrom (t : Nat) : List Nat → List Nat
  | [] => []
  | d :: ds => (t + d) :: workerFinishTimesFrom (t + d) ds

/-- Finish instants relative to the batch pull. -/
def workerFinishTimes (ds : List Nat) : List Nat := workerFinishTimesFrom 0 ds

/-- The instant the for loop ends and the worker reaches its sleep. -/
def batchCompletionTime (ds : List Nat) : Nat := ds.sum

theorem workerStartTimesFrom_shift (t : Nat) (ds : List Nat) :
    workerStartTimesFrom t ds = (workerStartTimesFrom 0 ds).map (fun x => t + x) := by
  induction ds generalizing t with
  | nil => rfl
  | cons d ds ih =>
      simp only [workerStartTimesFrom, List.map_cons, Nat.add_zero, Nat.zero_add]
      apply congrArg (t :: ·)
      rw [ih (t + d), ih d, List.map_map]
      apply List.map_congr_left
      intro a _
      simp only [Function.comp_apply]
      omega

theorem workerFinishTimesFrom_le (t : Nat) (ds : List Nat) :
    ∀ x ∈ workerFinishTimesFrom t ds, x ≤ t + ds.sum := by
  induction ds generalizing t with
  | nil => intro x hx; cases hx
  | cons d ds ih =>
      intro x hx
      rcases List.mem_cons.mp hx with h | h
      · subst h
        simp only [List.sum_cons]
        omega
      · have := ih (t + d) x h
        simp only [List.sum_cons]
        omega

/-- C7 counterexample.  The claim says the worker launches one concurrent
task per pulled alert and the tasks run independently.  Under the
sequential for loop the second alert of the batch starts only when the
first finishes: with durations [10, 1] it starts at instant 10, with
durations [0, 1] at instant 0 - its schedule depends on the first alert
duration, so the batch is not a set of independently running tasks, and
a slow first alert delays the second. -/
theorem c7_batch_not_concurrent :
    workerStartTimes [10, 1] = [0, 10] ∧
    workerStartTimes [0, 1] = [0, 0] ∧
    (10 : Nat) ≠ 0 :=
  ⟨rfl, rfl, by decide⟩

/-- C7 as amended: within one cycle the pulled alerts are processed
strictly sequentially - every later alert is delayed by exactly the
first alert duration (and so on recursively), so one slow alert does
delay the rest of the batch; what does hold is that the loop reaches its
sleep only after the whole batch has finished. -/
theorem c7_sequential_schedule (d : Nat) (ds : List Nat) :
    workerStartTimes (d :: ds) = 0 :: (workerStartTimes ds).map (fun x => d + x) ∧
    ((workerFinishTimes (d :: ds)).all
        (fun x => decide (x ≤ batchCompletionTime (d :: ds)))) = true ∧
    batchCompletionTime (d :: ds) = d + ds.sum := by
  refine ⟨?_, ?_, rfl⟩
  · rw [workerStartTimes]
    simp only [workerStartTimesFrom, Nat.zero_add]
    exact congrArg (0 :: ·) (workerStartTimesFrom_shift d ds)
  · rw [List.all_eq_true]
    intro x hx
    simpa using workerFinishTimesFrom_le 0 (d :: ds) x hx

/-! ## Workload discovery: src/external_resource_service/k8s.py

The cluster is modelled as the finite state the kubernetes client reads:
namespace names, pods, replica sets and deployments.  A read-by-name API
call answers with the matching object or not-found (the ApiException
branch of the source).  Of the result dictionary the source builds, the
embedding keeps the found pod (or the error marker) and the
discovery_info record, which is what the claims are about; the formatted
pod fields, the deployment context fetch and the event listing are not
modelled. -/

structure OwnerReference where
  kind : String
  name : String
deriving DecidableEq, Repr

structure Pod where
  name : String
  ns : String
  owner_references : List OwnerReference
  labels : List (String × String)
deriving DecidableEq, Repr

structure ReplicaSet where
  name : String
  ns : String
  owner_references : List OwnerReference
deriving DecidableEq, Repr

structure Deployment where
  name : String
  ns : String
deriving DecidableEq, Repr

structure Cluster where
  namespaces : List String
  pods : List Pod
  replicasets : List ReplicaSet
  deployments : List Deployment
deriving DecidableEq, Repr

def read_namespaced_pod (c : Cluster) (name ns : String) : Option Pod :=
  c.pods.find? (fun p => p.name == name && p.ns == ns)

def read_namespaced_replica_set (c : Cluster) (name ns : String) : Option ReplicaSet :=
  c.replicasets.find? (fun r => r.name == name && r.ns == ns)

def read_namespaced_deployment (c : Cluster) (name ns : String) : Option Deployment :=
  c.deployments.find? (fun d => d.name == name && d.ns == ns)

/-- Method 1 of _discover_deployment_from_pod (k8s.py lines 149-166): walk
the owner references of the pod; for each ReplicaSet-kind owner, read the
ReplicaSet and return the name of its first Deployment-kind owner; a
failed read or a ReplicaSet without a Deployment owner moves on to the
next owner reference. -/
def ownerChainLoop (c : Cluster) (ns : String) : List OwnerReference → Option String
  | [] => none
  | o :: rest =>
      if o.kind == "ReplicaSet" then
        match read_namespaced_replica_set c o.name ns with
        | some rs =>
            match rs.owner_references.find? (fun ro => ro.kind == "Deployment") with
            | some ro => some ro.name
            | none => ownerChainLoop c ns rest
        | none => ownerChainLoop c ns rest
      else ownerChainLoop c ns rest

/-- The fixed ordered label keys of method 2 (k8s.py lines 171-175). -/
def deployment_labels : List String :=
  ["app.kubernetes.io/name", "app", "k8s-app"]

/-- Method 2 of _discover_deployment_from_pod (k8s.py lines 168-189): for
each conventional label key present on the pod, return the label value
when a deployment of that name exists in the pod namespace. -/
def labelLoop (c : Cluster) (pod : Pod) : List String → Option String
  | [] => none
  | k :: rest =>
      match (pod.labels.find? (fun kv => kv.1 == k)).map (fun kv => kv.2) with
      | some app_name =>
          match read_namespaced_deployment c app_name pod.ns with
          | some _ => some app_name
          | none => labelLoop c pod rest
      | none => labelLoop c pod rest

/-- The label method runs only when the pod has labels at all
(`if pod.metadata.labels:`). -/
def labelMethod (c : Cluster) (pod : Pod) : Option String :=
  if pod.labels.isEmpty then none else labelLoop c pod deployment_labels

/-- _discover_deployment_from_pod (k8s.py lines 144-196): ownership chain
first, label heuristic only when the chain resolves nothing. -/
def _discover_deployment_from_pod (c : Cluster) (pod : Pod) : Option String :=
  match ownerChainLoop c pod.ns pod.owner_references with
  | some d => some d
  | none => labelMethod c pod

/-! ### C9: ownership chain precedes the label heuristic -/

/-- C9.  For a pod owned by a ReplicaSet that is owned by a Deployment
named D, discovery resolves D through the ownership chain, whatever the
pod labels are and whatever deployments exist that would match a label
key - ownership takes precedence. -/
theorem c9_ownership_precedence (c : Cluster) (pod : Pod)
    (rsName D : String) (rsObj : ReplicaSet)
    (h1 : pod.owner_references = [⟨"ReplicaSet", rsName⟩])
    (h2 : read_namespaced_replica_set c rsName pod.ns = some rsObj)
    (h3 : rsObj.owner_references = [⟨"Deployment", D⟩]) :
    ownerChainLoop c pod.ns pod.owner_references = some D ∧
    _discover_deployment_from_pod c pod = some D := by
  have hchain : ownerChainLoop c pod.ns pod.owner_references = some D := by
    rw [h1]
    have hstep : ownerChainLoop c pod.ns [⟨"ReplicaSet", rsName⟩]
        = match read_namespaced_replica_set c rsName pod.ns with
          | some rs =>
              match rs.owner_references.find? (fun ro => ro.kind == "Deployment") with
              | some ro => some ro.name
              | none => none
          | none => none := rfl
    rw [hstep, h2]
    show (match rsObj.owner_references.find? (fun ro => ro.kind == "Deployment") with
          | some ro => some ro.name
          | none => (none : Option String)) = some D
    rw [h3]
    rfl
  refine ⟨hchain, ?_⟩
  rw [_discover_deployment_from_pod, hchain]

/-- A concrete cluster for the C9 witness: pod p-1 is owned by
ReplicaSet rs-a, itself owned by Deployment web; the pod also carries
label app=api and a deployment named api exists in the same namespace,
so the label heuristic alone would answer api. -/
def demoCluster9 : Cluster :=
  { namespaces := ["prod"],
    pods := [⟨"p-1", "prod", [⟨"ReplicaSet", "rs-a"⟩], [("app", "api")]⟩],
    replicasets := [⟨"rs-a", "prod", [⟨"Deployment", "web"⟩]⟩],
    deployments := [⟨"web", "prod"⟩, ⟨"api", "prod"⟩] }

def demoPod9 : Pod := ⟨"p-1", "prod", [⟨"ReplicaSet", "rs-a"⟩], [("app", "api")]⟩

/-- C9 witness: on demoCluster9 discovery answers web via the ownership
chain even though the label heuristic would answer api. -/
theorem c9_ownership_precedence_witness :
    (ownerChainLoop demoCluster9 demoPod9.ns demoPod9.owner_references = some "web" ∧
     _discover_deployment_from_pod demoCluster9 demoPod9 = some "web") ∧
    labelMethod demoCluster9 demoPod9 = some "api" ∧
    ("web" : String) ≠ "api" :=
  ⟨c9_ownership_precedence demoCluster9 demoPod9 "rs-a" "web"
      ⟨"rs-a", "prod", [⟨"Deployment", "web"⟩]⟩ rfl rfl rfl,
   rfl, by decide⟩

/-! ### C8: namespace search order -/

/-- The priority namespaces of _discover_pod_automatically (k8s.py line
85). -/
def priority_namespaces : List String :=
  ["default", "kube-system", "monitoring", "logging"]

/-- The search order (k8s.py line 92): priority namespaces first, then
every remaining namespace as listed by the cluster. -/
def search_order (c : Cluster) : List String :=
  priority_namespaces ++
    c.namespaces.filter (fun ns => !priority_namespaces.contains ns)

structure DiscoveryInfo where
  search_strategy : String
  searched_namespaces : List String
  found_namespace : Option String
  found_deployment : Option String
deriving DecidableEq, Repr

/-- What the embedding keeps of the result dictionary of
_discover_pod_automatically: the found pod (or the not-found error
string) and the discovery_info record. -/
structure DiscoveryOutcome where
  pod : Except String Pod
  info : DiscoveryInfo
deriving Repr

/-- found_deployment is only recorded when the discovered name is truthy
(`if deployment_name:`). -/
def strOptIfTruthy : Option String → Option String
  | none => none
  | some s => if s.toList.isEmpty then none else some s

/-- The namespace loop of _discover_pod_automatically (k8s.py lines
94-124): skip names that are not in the cluster listing, record each
namespace before reading, stop at the first namespace containing the
pod. -/
def searchLoop (c : Cluster) (pod_name : String) :
    List String → List String → List String × Option (Pod × String)
  | [], searched => (searched, none)
  | ns :: rest, searched =>
      if c.namespaces.contains ns then
        match read_namespaced_pod c pod_name ns with
        | some pod => (searched ++ [ns], some (pod, ns))
        | none => searchLoop c pod_name rest (searched ++ [ns])
      else searchLoop c pod_name rest searched

/-- _discover_pod_automatically (k8s.py lines 71-142). -/
def _discover_pod_automatically (c : Cluster) (pod_name : String) : DiscoveryOutcome :=
  match searchLoop c pod_name (search_order c) [] with
  | (searched, some (pod, ns)) =>
      { pod := .ok pod,
        info := { search_strategy := "automatic_discovery",
                  searched_namespaces := searched,
                  found_namespace := some ns,
                  found_deployment :=
                    strOptIfTruthy (_discover_deployment_from_pod c pod) } }
  | (searched, none) =>
      { pod := .error ("Pod " ++ pod_name ++ " not found in any namespace"),
        info := { search_strategy := "automatic_discovery",
                  searched_namespaces := searched,
                  found_namespace := none,
                  found_deployment := none } }

/-- The prefix of a list up to and including the first element satisfying
`p` (the whole list when none does). -/
def takeThrough (p : α → Bool) : List α → List α
  | [] => []
  | a :: t => if p a then [a] else a :: takeThrough p t

theorem takeThrough_cons_pos (p : α → Bool) (a : α) (t : List α) (h : p a = true) :
    takeThrough p (a :: t) = [a] := by
  simp [takeThrough, h]

theorem takeThrough_cons_neg (p : α → Bool) (a : α) (t : List α) (h : p a = false) :
    takeThrough p (a :: t) = a :: takeThrough p t := by
  simp [takeThrough, h]

theorem searchLoop_finds (c : Cluster) (pod_name nsX : String) (podX : Pod)
    (hx : read_namespaced_pod c pod_name nsX = some podX) :
    ∀ (order searched : List String),
      (∀ ns ∈ order, ns ≠ nsX → read_namespaced_pod c pod_name ns = none) →
      nsX ∈ order.filter (fun ns => c.namespaces.contains ns) →
      searchLoop c pod_name order searched
        = (searched ++
            takeThrough (fun ns => ns == nsX)
              (order.filter (fun ns => c.namespaces.contains ns)),
           some (podX, nsX)) := by
  intro order
  induction order with
  | nil => intro searched _ hmem; cases hmem
  | cons ns rest ih =>
      intro searched honly hmem
      by_cases hc : c.namespaces.contains ns
      · by_cases hn : ns = nsX
        · subst hn
          simp only [searchLoop]
          rw [if_pos hc, hx, List.filter_cons_of_pos hc,
            takeThrough_cons_pos (fun x => x == ns) ns _ (beq_self_eq_true ns)]
        · have hnone : read_namespaced_pod c pod_name ns = none :=
            honly ns (List.mem_cons_self ns rest) hn
          have hmem' : nsX ∈ rest.filter (fun n => c.namespaces.contains n) := by
            rw [List.filter_cons_of_pos hc] at hmem
            rcases List.mem_cons.mp hmem with h | h
            · exact absurd h.symm hn
            · exact h
          have honly' : ∀ n ∈ rest, n ≠ nsX → read_namespaced_pod c pod_name n = none :=
            fun n hmemn => honly n (List.mem_cons_of_mem ns hmemn)
          have hbeq : (ns == nsX) = false := beq_eq_false_iff_ne.mpr hn
          simp only [searchLoop]
          rw [if_pos hc, hnone]
          show searchLoop c pod_name rest (searched ++ [ns]) = _
          rw [ih (searched ++ [ns]) honly' hmem', List.filter_cons_of_pos hc,
            takeThrough_cons_neg (fun x => x == nsX) ns _ hbeq]
          rw [List.append_assoc, List.singleton_append]
      · have hmem' : nsX ∈ rest.filter (fun n => c.namespaces.contains n) := by
          rw [List.filter_cons_of_neg hc] at hmem
          exact hmem
        have honly' : ∀ n ∈ rest, n ≠ nsX → read_namespaced_pod c pod_name n = none :=
          fun n hmemn => honly n (List.mem_cons_of_mem ns hmemn)
        simp only [searchLoop]
        rw [if_neg hc, ih searched honly' hmem', List.filter_cons_of_neg hc]

theorem mem_effective_order (c : Cluster) (nsX : String)
    (hmem : nsX ∈ c.namespaces) :
    nsX ∈ (search_order c).filter (fun ns => c.namespaces.contains ns) := by
  rw [List.mem_filter]
  refine ⟨?_, List.elem_iff.mpr hmem⟩
  rw [search_order, List.mem_append]
  by_cases hp : nsX ∈ priority_namespaces
  · exact Or.inl hp
  · refine Or.inr (List.mem_filter.mpr ⟨hmem, ?_⟩)
    simp [List.elem_iff]
    exact hp

/-- C8.  With only a pod name, discovery walks the namespaces with the
priority namespaces first and then every remaining cluster namespace as
listed, records each namespace it searches, and stops at the first
namespace containing the pod; a pod living only in a namespace outside
the priority list is still found, and searched_namespaces is exactly the
searched prefix up to and including that namespace. -/
theorem c8_priority_namespace_search (c : Cluster) (pod_name nsX : String)
    (podX : Pod)
    (hx : read_namespaced_pod c pod_name nsX = some podX)
    (honly : ∀ ns ∈ search_order c, ns ≠ nsX →
        read_namespaced_pod c pod_name ns = none)
    (hmem : nsX ∈ c.namespaces) :
    search_order c
      = priority_namespaces ++
          c.namespaces.filter (fun ns => !priority_namespaces.contains ns) ∧
    (_discover_pod_automatically c pod_name).pod = Except.ok podX ∧
    (_discover_pod_automatically c pod_name).info.found_namespace = some nsX ∧
    (_discover_pod_automatically c pod_name).info.searched_namespaces
      = takeThrough (fun ns => ns == nsX)
          ((search_order c).filter (fun ns => c.namespaces.contains ns)) ∧
    nsX ∈ (_discover_pod_automatically c pod_name).info.searched_namespaces := by
  have hloop := searchLoop_finds c pod_name nsX podX hx (search_order c) []
    honly (mem_effective_order c nsX hmem)
  have houtcome : _discover_pod_automatically c pod_name
      = { pod := .ok podX,
          info := { search_strategy := "automatic_discovery",
                    searched_namespaces :=
                      takeThrough (fun ns => ns == nsX)
                        ((search_order c).filter (fun ns => c.namespaces.contains ns)),
                    found_namespace := some nsX,
                    found_deployment :=
                      strOptIfTruthy (_discover_deployment_from_pod c podX) } } := by
    rw [_discover_pod_automatically, hloop]
    rfl
  have hin : nsX ∈ takeThrough (fun ns => ns == nsX)
      ((search_order c).filter (fun ns => c.namespaces.contains ns)) := by
    have : ∀ l : List String, nsX ∈ l → nsX ∈ takeThrough (fun ns => ns == nsX) l := by
      intro l
      induction l with
      | nil => intro h; cases h
      | cons a t ih =>
          intro h
          by_cases ha : a = nsX
          · subst ha
            simp [takeThrough]
          · have hbeq : (a == nsX) = false := beq_eq_false_iff_ne.mpr ha
            simp only [takeThrough, hbeq, if_false]
            rcases List.mem_cons.mp h with h1 | h1
            · exact absurd h1.symm ha
            · exact List.mem_cons_of_mem a (ih h1)
    exact this _ (mem_effective_order c nsX hmem)
  rw [houtcome]
  exact ⟨rfl, rfl, rfl, rfl, hin⟩

/-- A cluster for the C8 witness: pod web-1 lives only in namespace
ops-x, which is not a priority namespace. -/
def demoCluster8 : Cluster :=
  { namespaces := ["default", "kube-system", "ops-x"],
    pods := [⟨"web-1", "ops-x", [], []⟩],
    replicasets := [],
    deployments := [] }

/-- C8 witness: on demoCluster8 the pod is found in ops-x and the
searched namespaces are default, kube-system, ops-x in that order. -/
theorem c8_priority_namespace_search_witness :
    (search_order demoCluster8
      = priority_namespaces ++
          demoCluster8.namespaces.filter
            (fun ns => !priority_namespaces.contains ns) ∧
    (_discover_pod_automatically demoCluster8 "web-1").pod
      = Except.ok ⟨"web-1", "ops-x", [], []⟩ ∧
    (_discover_pod_automatically demoCluster8 "web-1").info.found_namespace
      = some "ops-x" ∧
    (_discover_pod_automatically demoCluster8 "web-1").info.searched_namespaces
      = takeThrough (fun ns => ns == "ops-x")
          ((search_order demoCluster8).filter
            (fun ns => demoCluster8.namespaces.contains ns)) ∧
    "ops-x" ∈ (_discover_pod_automatically demoCluster8 "web-1").info.searched_namespaces) ∧
    (_discover_pod_automatically demoCluster8 "web-1").info.searched_namespaces
      = ["default", "kube-system", "ops-x"] :=
  ⟨c8_priority_namespace_search demoCluster8 "web-1" "ops-x"
      ⟨"web-1", "ops-x", [], []⟩ rfl (by decide) (by decide),
   by decide⟩

/-! ## Safety classifier: src/decision/solution_generator.py

validate_solution_safety mixes two runtime types in its risk_level
variable: the text scan assigns the enum member RiskLevel.HIGH, while
both command-scan branches assign the plain string "HIGH" (lines 117 and
123 of the source).  The embedding keeps that distinction with PyRiskVal;
Python equality between a string and an enum member is always false, and
attribute access `.value` on a string raises AttributeError. -/

/-- RiskLevel enumeration (solution_generator.py lines 14-18). -/
inductive RiskLevel where
  | LOW | MEDIUM | HIGH
deriving DecidableEq, Repr

def RiskLevel.value : RiskLevel → String
  | .LOW => "LOW"
  | .MEDIUM => "MEDIUM"
  | .HIGH => "HIGH"

/-- The runtime value held by the risk_level variable: an enum member or
a plain string. -/
inductive PyRiskVal where
  | enum (r : RiskLevel)
  | pystr (s : String)
deriving DecidableEq, Repr

/-- The denylist self.dangerous_commands (solution_generator.py lines
33-36). -/
def dangerous_commands : List String :=
  ["rm -rf", "delete", "destroy", "drop", "truncate",
   "format", "mkfs", "dd if=", "kill -9"]

/-- The denylist self.kubectl_destructive (solution_generator.py lines
38-40). -/
def kubectl_destructive : List String := ["delete", "destroy", "remove"]

/-- Python `risk_level != RiskLevel.HIGH`: an enum member compares by
identity, a string is never equal to an enum member. -/
def pyNeqRiskHigh : PyRiskVal → Bool
  | .enum r => decide (r ≠ RiskLevel.HIGH)
  | .pystr _ => true

inductive PyExc where
  | attributeError (msg : String)
deriving DecidableEq, Repr

/-- Python `risk_level.value`. -/
def pyValueAttr : PyRiskVal → Except PyExc String
  | .enum r => .ok r.value
  | .pystr _ => .error (.attributeError "str object has no attribute value")

/-- The first loop of validate_solution_safety (lines 101-106): scan the
lowered solution text against dangerous_commands, collecting issues and
setting risk_level to the enum member HIGH on a match. -/
def textScan (solution_text : String) : List String × PyRiskVal :=
  let solution_lower := pyLower solution_text
  dangerous_commands.foldl
    (fun acc d =>
      if pyIn d solution_lower then
        (acc.1 ++ ["Dangerous command detected: " ++ d],
         PyRiskVal.enum RiskLevel.HIGH)
      else acc)
    ([], PyRiskVal.enum RiskLevel.LOW)

/-- The per-command body of the second loop (lines 109-123): the kubectl
check and the system-command check both set risk_level to the plain
string "HIGH" on a match, and record the original command text in the
issue. -/
def commandScan (acc : List String × PyRiskVal) (cmd : String) :
    List String × PyRiskVal :=
  let cmd_lower := pyStrip (pyLower cmd)
  let acc1 :=
    if pyStartsWith cmd_lower "kubectl" then
      kubectl_destructive.foldl
        (fun a d =>
          if pyIn d cmd_lower then
            (a.1 ++ ["Destructive kubectl command: " ++ cmd],
             PyRiskVal.pystr "HIGH")
          else a)
        acc
    else acc
  dangerous_commands.foldl
    (fun a d =>
      if pyIn d cmd_lower then
        (a.1 ++ ["Dangerous system command: " ++ cmd], PyRiskVal.pystr "HIGH")
      else a)
    acc1

structure SafetyResult where
  is_safe : Bool
  risk_level : String
  safety_issues : List String
  recommendations : List String
deriving DecidableEq, Repr

/-- _generate_safety_recommendations (solution_generator.py lines
349-361). -/
def _generate_safety_recommendations (issues : List String) : List String :=
  if issues.isEmpty then ["Solution appears safe for automated execution"]
  else
    ["Manual review required before execution",
     "Test in staging environment first",
     "Have rollback plan ready",
     "Monitor system during execution"]

/-- validate_solution_safety (solution_generator.py lines 89-133): text
scan, then the command loop, then `is_safe = risk_level != RiskLevel.HIGH`,
then the result dictionary - whose `risk_level.value` access raises when
risk_level holds the string assigned by the command branches. -/
def validate_solution_safety (solution_text : String) (commands : List String) :
    Except PyExc SafetyResult :=
  let scanned := commands.foldl commandScan (textScan solution_text)
  let safeFlag := pyNeqRiskHigh scanned.2
  match pyValueAttr scanned.2 with
  | .error e => .error e
  | .ok v =>
      .ok { is_safe := safeFlag, risk_level := v,
            safety_issues := scanned.1,
            recommendations := _generate_safety_recommendations scanned.1 }

/-- C3.  The claim says that on a fenced block containing `kubectl delete
pod foo` the classifier returns risk HIGH with is_safe false, the issue
string retained, and never raises.  The code disagrees: the command
branch stores the plain string "HIGH" in risk_level, so building the
result dictionary raises AttributeError at `risk_level.value`; and the
is_safe flag computed just before the raise is true, because the string
"HIGH" is not equal to the enum member RiskLevel.HIGH.  The issue string
itself is correctly collected before the raise.  Evaluated at the failing
input (the fenced block as solution text, with its extracted command
list). -/
theorem c3_safety_classifier_raises_on_destructive_command :
    validate_solution_safety "```\nkubectl delete pod foo\n```"
        ["kubectl delete pod foo"]
      = Except.error (PyExc.attributeError "str object has no attribute value") ∧
    "Destructive kubectl command: kubectl delete pod foo"
        ∈ (["kubectl delete pod foo"].foldl commandScan
            (textScan "```\nkubectl delete pod foo\n```")).1 ∧
    pyNeqRiskHigh (["kubectl delete pod foo"].foldl commandScan
        (textScan "```\nkubectl delete pod foo\n```")).2 = true := by
  refine ⟨rfl, ?_, rfl⟩
  decide

end KFix
